import Mathlib

/-!
# Verification of the scene orchestrator (`src/js/scene.js`)

A shallow embedding of the `Scene` class of `src/js/scene.js` and proofs of
the specification's claims about it.

Modelling conventions:
* JavaScript numbers are modelled as exact rationals (`ℚ`); the claims are
  stated in exact arithmetic (`v₀ × 0.95^k`, plane-dimension equality, …).
* External library functions (the `Math` builtins, `THREE.Vector3.unproject`,
  `Math.random`) are parameters of the model, bundled in the `JsMath`
  structure: the repository's code never inspects their implementation, it
  only calls them.
* The mutable `Scene` object is modelled as a state value; each method of the
  class becomes a state-transition function.  The constructor's early return
  when no canvas is supplied (`scene.js` lines 24-29) becomes the `disabled`
  variant of the `Scene` type; note that on a disabled instance the methods
  `setScroll` and `setMouse` (lines 298-310) still assign to
  `this.scrollProgress` / `this.mouseX` / `this.mouseY` because they have no
  `enabled` guard, which is why the disabled variant still carries those
  (initially undefined, hence `Option`) fields.
* The per-frame clock sample `this.clock.getElapsedTime()` is an input of
  `update`.
-/

/-- A 3-component vector of rationals, modelling `THREE.Vector3`. -/
structure Vec3 where
  x : ℚ
  y : ℚ
  z : ℚ
deriving DecidableEq, Repr

instance : Add Vec3 := ⟨fun a b => ⟨a.x + b.x, a.y + b.y, a.z + b.z⟩⟩

instance : Sub Vec3 := ⟨fun a b => ⟨a.x - b.x, a.y - b.y, a.z - b.z⟩⟩

instance : SMul ℚ Vec3 := ⟨fun c v => ⟨c * v.x, c * v.y, c * v.z⟩⟩

theorem Vec3.add_def (a b : Vec3) : a + b = ⟨a.x + b.x, a.y + b.y, a.z + b.z⟩ := rfl

theorem Vec3.sub_def (a b : Vec3) : a - b = ⟨a.x - b.x, a.y - b.y, a.z - b.z⟩ := rfl

theorem Vec3.smul_def (c : ℚ) (v : Vec3) : c • v = ⟨c * v.x, c * v.y, c * v.z⟩ := rfl

/-- The external library functions the scene calls (JavaScript `Math`
builtins and the parts of the three.js library whose code is not part of
this repository).  The model is parametric in them. -/
structure JsMath where
  /-- `Math.sin` -/
  sin : ℚ → ℚ
  /-- `Math.tan` -/
  tan : ℚ → ℚ
  /-- `Math.sqrt` (used by `THREE.Vector3.length`) -/
  sqrt : ℚ → ℚ
  /-- `THREE.MathUtils.degToRad` -/
  degToRad : ℚ → ℚ
  /-- `Math.PI` -/
  pi : ℚ
  /-- the stream of `Math.random()` samples, indexed by call order -/
  random : ℕ → ℚ
  /-- `THREE.Vector3.unproject` through this scene's perspective camera:
  given the camera's current aspect ratio (the only camera parameter this
  scene ever changes) and an NDC-space point, the corresponding world-space
  point. -/
  unproject : ℚ → Vec3 → Vec3

/-- `THREE.Vector3.normalize`: divide by the length, where a zero length is
replaced by 1 (three.js computes `divideScalar(length() || 1)`). -/
def vecNormalize (M : JsMath) (v : Vec3) : Vec3 :=
  let len := M.sqrt (v.x * v.x + v.y * v.y + v.z * v.z)
  let d := if len = 0 then 1 else len
  ⟨v.x / d, v.y / d, v.z / d⟩

/-- The state of `this.camera` (a `THREE.PerspectiveCamera`): the
constructor parameters and the position; only `aspect` is ever reassigned
(`resize`, line 411). -/
structure Camera where
  fov : ℚ
  aspect : ℚ
  near : ℚ
  far : ℚ
  position : Vec3
deriving DecidableEq, Repr

/-- One wireframe mesh (`scene.js` lines 161-175): current position and
rotation, plus the `userData` fields `basePosition` and `speed`. -/
structure MeshObj where
  posX : ℚ
  posY : ℚ
  posZ : ℚ
  rotX : ℚ
  rotY : ℚ
  rotZ : ℚ
  basePosition : Vec3
  speed : ℚ
deriving DecidableEq, Repr

/-- The five wireframe definitions of `_initWireframes` (lines 124-151):
base position and speed (the geometric primitives themselves carry no
per-frame state the spec's claims mention). -/
def meshDefs : List (Vec3 × ℚ) :=
  [(⟨-10, 6, -15⟩, 1.0),
   (⟨12, -4, -20⟩, 0.7),
   (⟨-6, -8, -12⟩, 0.5),
   (⟨8, 8, -18⟩, 0.9),
   (⟨0, -12, -16⟩, 0.6)]

/-- Construction of the `k`-th wireframe mesh (lines 161-173): position is
copied from the definition, `basePosition`/`speed` stored in `userData`, and
the starting rotation about x and y drawn from `Math.random() * Math.PI * 2`. -/
def mkMesh (M : JsMath) (k : ℕ) (d : Vec3 × ℚ) : MeshObj :=
  { posX := d.1.x
    posY := d.1.y
    posZ := d.1.z
    rotX := M.random (2 * k) * M.pi * 2
    rotY := M.random (2 * k + 1) * M.pi * 2
    rotZ := 0
    basePosition := d.1
    speed := d.2 }

/-- `_initWireframes` (lines 123-176), restricted to the animated state. -/
def initMeshes (M : JsMath) : List MeshObj :=
  meshDefs.enum.map fun p => mkMesh M p.1 p.2

/-- The state of an enabled `Scene` instance: the stored input signals, the
camera, the background-shader uniforms (`this.bgUniforms`), the
background-plane geometry dimensions, the wireframe meshes, the particle
field's bulk rotation, and the cursor-trail position buffer. -/
structure ActiveState where
  scrollProgress : ℚ
  mouseX : ℚ
  mouseY : ℚ
  trailLength : ℕ
  camera : Camera
  uTime : ℚ
  uScroll : ℚ
  uMouse : ℚ × ℚ
  uResolution : ℚ × ℚ
  uVelocity : ℚ
  bgPlaneWidth : ℚ
  bgPlaneHeight : ℚ
  geometries : List MeshObj
  particlesRotX : ℚ
  particlesRotY : ℚ
  trail : List Vec3
deriving DecidableEq, Repr

/-- The fields a disabled instance can still acquire: `setScroll` and
`setMouse` have no `enabled` guard (lines 298-310), so they assign
`this.scrollProgress` / `this.mouseX` / `this.mouseY` even on a disabled
instance.  `none` models the JavaScript `undefined` of a never-assigned
property. -/
structure DisabledFields where
  scrollProgress : Option ℚ
  mouseX : Option ℚ
  mouseY : Option ℚ
deriving DecidableEq, Repr

/-- The `Scene` object: either the constructor bailed out (no canvas,
lines 25-29) or the full state was initialized. -/
inductive Scene where
  | disabled : DisabledFields → Scene
  | active : ActiveState → Scene
deriving DecidableEq, Repr

/-- The trail sentinel written by `_initCursorTrail` (lines 220-225):
`(0, 0, -100)`. -/
def trailSentinel : Vec3 := ⟨0, 0, -100⟩

/-- Background-plane height before the 1.2 margin factor
(`_initBackground` lines 107-110 and `resize` lines 424-427):
`2 * tan(degToRad(45) / 2) * (30 + 50)`. -/
def planeHeight (M : JsMath) : ℚ :=
  2 * M.tan (M.degToRad 45 / 2) * (30 + 50)

/-- Background-plane width before the margin factor: `planeHeight * (w / h)`. -/
def planeWidth (M : JsMath) (w h : ℚ) : ℚ :=
  planeHeight M * (w / h)

/-- The enabled branch of the constructor (lines 31-49): initial signal
values, camera (`_initCamera`, lines 71-79), uniforms (`_initBackground`,
lines 91-97), plane dimensions (lines 106-113), wireframes, particle
rotation, and the sentinel-filled trail buffer (`_initCursorTrail`,
lines 215-225). -/
def initActive (M : JsMath) (innerWidth innerHeight : ℚ) : ActiveState :=
  { scrollProgress := 0
    mouseX := 0
    mouseY := 0
    trailLength := 100
    camera := { fov := 45, aspect := innerWidth / innerHeight, near := 0.1,
                far := 1000, position := ⟨0, 0, 30⟩ }
    uTime := 0
    uScroll := 0
    uMouse := (0, 0)
    uResolution := (innerWidth, innerHeight)
    uVelocity := 0
    bgPlaneWidth := planeWidth M innerWidth innerHeight * 1.2
    bgPlaneHeight := planeHeight M * 1.2
    geometries := initMeshes M
    particlesRotX := 0
    particlesRotY := 0
    trail := List.replicate 100 trailSentinel }

/-- The `Scene` constructor (lines 24-50): with no canvas it sets
`enabled = false` and returns before initializing anything else. -/
def Scene.new (M : JsMath) (hasCanvas : Bool) (innerWidth innerHeight : ℚ) : Scene :=
  if hasCanvas then .active (initActive M innerWidth innerHeight)
  else .disabled ⟨none, none, none⟩

/-- `_mouseToWorld` (lines 253-266): unproject the NDC point `(nx, -ny, 0.5)`,
normalize the direction from the camera, and step along it to the plane
`z = target`. -/
def mouseToWorld (M : JsMath) (cam : Camera) (nx ny z : ℚ) : Vec3 :=
  let ndc : Vec3 := ⟨nx, -ny, 0.5⟩
  let ndcWorld := M.unproject cam.aspect ndc
  let dir := vecNormalize M (ndcWorld - cam.position)
  let distToPlane := (z - cam.position.z) / dir.z
  cam.position + distToPlane • dir

/-- The normalized ray direction computed inside `_mouseToWorld`
(lines 255-259), named so claims can speak about it. -/
def rayDir (M : JsMath) (cam : Camera) (nx ny : ℚ) : Vec3 :=
  vecNormalize M (M.unproject cam.aspect ⟨nx, -ny, 0.5⟩ - cam.position)

/-- The shifting loop of `_updateCursorTrail` (lines 383-389):
`for (i = count-1; i > 0; i--) arr[i] = arr[i-1]`.  `shiftLoop l i` runs the
iterations for indices `i, i-1, …, 1`. -/
def shiftLoop : List Vec3 → ℕ → List Vec3
  | l, 0 => l
  | l, i + 1 => shiftLoop (l.set (i + 1) (l.getD i trailSentinel)) i

/-- `_updateCursorTrail` (lines 375-400): shift every slot one index toward
the tail, then write the projection of the current mouse sample at depth 5
into slot 0. -/
def updateCursorTrail (M : JsMath) (s : ActiveState) : List Vec3 :=
  let shifted := shiftLoop s.trail (s.trailLength - 1)
  shifted.set 0 (mouseToWorld M s.camera s.mouseX s.mouseY 5)

/-- `parallaxStrength` for a mesh of base depth `z` (lines 349-350):
`0.8 * (1 - |z| / 25)`. -/
def parallaxStrength (z : ℚ) : ℚ :=
  0.8 * (1 - |z| / 25.0)

/-- The per-mesh body of the `update` loop (lines 339-356): accumulate the
rotation, recompute the position from `basePosition` + parallax, and add the
sinusoidal bob to y. -/
def animateMesh (M : JsMath) (mouseX mouseY elapsed : ℚ) (m : MeshObj) : MeshObj :=
  { m with
    rotX := m.rotX + 0.001 * m.speed
    rotY := m.rotY + 0.0015 * m.speed
    rotZ := m.rotZ + 0.0005 * m.speed
    posX := m.basePosition.x + mouseX * (parallaxStrength m.basePosition.z)
    posY := m.basePosition.y + mouseY * (parallaxStrength m.basePosition.z)
             + M.sin (elapsed * 0.3 * m.speed + m.speed * 10) * 0.15 }

/-- `update` (lines 325-369) on an enabled instance, with the clock sample
`elapsed` as input: refresh the uniforms, decay the velocity uniform by
0.95, animate the wireframes, rotate the particle field, and update the
cursor trail.  `composer.render()` has no model state. -/
def ActiveState.update (M : JsMath) (elapsed : ℚ) (s : ActiveState) : ActiveState :=
  { s with
    uTime := elapsed
    uScroll := s.scrollProgress
    uMouse := (s.mouseX, s.mouseY)
    uVelocity := s.uVelocity * 0.95
    geometries := s.geometries.map (animateMesh M s.mouseX s.mouseY elapsed)
    particlesRotY := elapsed * 0.01
    particlesRotX := elapsed * 0.005
    trail := updateCursorTrail M s }

/-- `resize` (lines 407-431) on an enabled instance: new camera aspect, new
resolution uniform, and regenerated background-plane geometry. -/
def ActiveState.resize (M : JsMath) (width height : ℚ) (s : ActiveState) : ActiveState :=
  { s with
    camera := { s.camera with aspect := width / height }
    uResolution := (width, height)
    bgPlaneWidth := planeWidth M width height * 1.2
    bgPlaneHeight := planeHeight M * 1.2 }

/-- `setScroll` (lines 298-300): clamp to [0,1] and store.  No `enabled`
guard: a disabled instance also stores the value. -/
def Scene.setScroll (s : Scene) (progress : ℚ) : Scene :=
  match s with
  | .disabled f => .disabled { f with scrollProgress := some (max 0 (min 1 progress)) }
  | .active st => .active { st with scrollProgress := max 0 (min 1 progress) }

/-- `setMouse` (lines 307-310): store verbatim.  No `enabled` guard. -/
def Scene.setMouse (s : Scene) (x y : ℚ) : Scene :=
  match s with
  | .disabled f => .disabled { f with mouseX := some x, mouseY := some y }
  | .active st => .active { st with mouseX := x, mouseY := y }

/-- `setVelocity` (lines 316-319): guarded by `enabled`; stores into the
velocity uniform. -/
def Scene.setVelocity (s : Scene) (v : ℚ) : Scene :=
  match s with
  | .disabled f => .disabled f
  | .active st => .active { st with uVelocity := v }

/-- `update` (lines 325-369): guarded by `enabled`. -/
def Scene.update (M : JsMath) (elapsed : ℚ) (s : Scene) : Scene :=
  match s with
  | .disabled f => .disabled f
  | .active st => .active (st.update M elapsed)

/-- `resize` (lines 407-431): guarded by `enabled`. -/
def Scene.resize (M : JsMath) (width height : ℚ) (s : Scene) : Scene :=
  match s with
  | .disabled f => .disabled f
  | .active st => .active (st.resize M width height)

/-- Iterating `update` over a list of clock samples, with no intervening
setter calls. -/
def runUpdates (M : JsMath) (ts : List ℚ) (s : ActiveState) : ActiveState :=
  ts.foldl (fun st t => st.update M t) s

/-- One animation frame as driven by `app.js`: the pointer collaborator
delivers its latest sample via `setMouse`, then the scheduler calls
`update` with the clock sample `t`. -/
structure Frame where
  t : ℚ
  mx : ℚ
  my : ℚ
deriving DecidableEq, Repr

/-- `setMouse` on an enabled instance. -/
def ActiveState.setMouse (x y : ℚ) (s : ActiveState) : ActiveState :=
  { s with mouseX := x, mouseY := y }

/-- `setVelocity` on an enabled instance. -/
def ActiveState.setVelocity (v : ℚ) (s : ActiveState) : ActiveState :=
  { s with uVelocity := v }

/-- Run one frame: deliver the pointer sample, then update. -/
def stepFrame (M : JsMath) (f : Frame) (s : ActiveState) : ActiveState :=
  (ActiveState.setMouse f.mx f.my s).update M f.t

/-- Run a list of frames in order. -/
def runFrames (M : JsMath) (fs : List Frame) (s : ActiveState) : ActiveState :=
  fs.foldl (fun st f => stepFrame M f st) s

/-- The projection a frame writes into trail slot 0, for a given camera. -/
def frameProj (M : JsMath) (cam : Camera) (f : Frame) : Vec3 :=
  mouseToWorld M cam f.mx f.my 5

/-- The view frustum of this scene's perspective camera.  Modelled from the
spec: the camera is constructed at `(0,0,30)` with the default three.js
orientation, looking along `-z`, so a point is visible iff its view-space
depth `d = camera.z - p.z` lies between the near and far planes and its
lateral offsets are within `tan(fov/2) * d` (times the aspect ratio on x).
`tanHalfFov` is the value of `Math.tan(degToRad(fov) / 2)`. -/
def inFrustum (tanHalfFov aspect : ℚ) (cam : Camera) (p : Vec3) : Prop :=
  let d := cam.position.z - p.z
  cam.near ≤ d ∧ d ≤ cam.far ∧
    |p.x - cam.position.x| ≤ tanHalfFov * aspect * d ∧
    |p.y - cam.position.y| ≤ tanHalfFov * d

instance (tanHalfFov aspect : ℚ) (cam : Camera) (p : Vec3) :
    Decidable (inFrustum tanHalfFov aspect cam p) := by
  unfold inFrustum; infer_instance

/-- The squared magnitude of the pointer-parallax displacement that the
`update` loop applies to a mesh of base depth `z` (lines 349-352): the
displacement vector is `(mouseX * strength, mouseY * strength)`. -/
def parallaxDispMagSq (mouseX mouseY z : ℚ) : ℚ :=
  (mouseX * parallaxStrength z) ^ 2 + (mouseY * parallaxStrength z) ^ 2

/-- A concrete instantiation of the external-library parameters, for
evaluating the model on concrete inputs. -/
def Mtest : JsMath :=
  { sin := fun _ => 0
    tan := fun _ => 1
    sqrt := fun _ => 1
    degToRad := fun q => q
    pi := 3
    random := fun _ => 0
    unproject := fun _ v => v }

/-- A concrete enabled scene state. -/
def sTest : ActiveState := initActive Mtest 800 600

/-! ## Trail buffer lemmas -/

theorem shiftLoop_length (k : ℕ) (l : List Vec3) : (shiftLoop l k).length = l.length := by
  induction k generalizing l with
  | zero => rfl
  | succ i ih => simp [shiftLoop, ih]

/-- Effect of the shifting loop on each slot: indices `1 … k` receive the
previous contents of their predecessor; slot 0 and indices beyond `k` are
untouched. -/
theorem shiftLoop_getElem? (k : ℕ) (l : List Vec3) (hk : k < l.length) (j : ℕ) :
    (shiftLoop l k)[j]? = if 1 ≤ j ∧ j ≤ k then l[j - 1]? else l[j]? := by
  induction k generalizing l with
  | zero =>
    rw [if_neg (by omega : ¬ (1 ≤ j ∧ j ≤ 0))]
    rfl
  | succ i ih =>
    have hi1 : i + 1 < l.length := hk
    have hset : (l.set (i + 1) (l.getD i trailSentinel)).length = l.length := by simp
    rw [shiftLoop, ih (l.set (i + 1) (l.getD i trailSentinel)) (by omega)]
    by_cases h1 : 1 ≤ j ∧ j ≤ i
    · rw [if_pos h1, if_pos (by omega : 1 ≤ j ∧ j ≤ i + 1)]
      have hne : ¬ (i + 1 = j - 1) := by omega
      simp [List.getElem?_set, hne]
    · by_cases h2 : j = i + 1
      · subst h2
        rw [if_neg h1, if_pos (by omega : 1 ≤ i + 1 ∧ i + 1 ≤ i + 1)]
        have hgetD : l[i + 1 - 1]? = some (l.getD i trailSentinel) := by
          rw [Nat.add_sub_cancel, List.getD_eq_getElem?_getD,
            List.getElem?_eq_getElem (by omega : i < l.length)]
          rfl
        rw [hgetD, List.getElem?_set, if_pos rfl, if_pos hi1]
      · rw [if_neg h1, if_neg (by omega : ¬ (1 ≤ j ∧ j ≤ i + 1))]
        have hne : ¬ (i + 1 = j) := by omega
        simp [List.getElem?_set, hne]

/-- `_updateCursorTrail` on a full 100-slot buffer is exactly: drop the
oldest sample and push the newest projection at the head. -/
theorem updateCursorTrail_eq (M : JsMath) (s : ActiveState)
    (hC : s.trailLength = 100) (hlen : s.trail.length = 100) :
    updateCursorTrail M s
      = mouseToWorld M s.camera s.mouseX s.mouseY 5 :: s.trail.dropLast := by
  apply List.ext_getElem?
  intro j
  unfold updateCursorTrail
  rw [hC]
  have hsl : (shiftLoop s.trail (100 - 1)).length = s.trail.length := shiftLoop_length _ _
  rw [List.getElem?_set]
  cases j with
  | zero =>
    simp [hsl, hlen]
  | succ n =>
    rw [if_neg (by omega : ¬ (0 = n + 1))]
    rw [shiftLoop_getElem? (100 - 1) s.trail (by omega) (n + 1)]
    rw [List.getElem?_cons_succ, List.getElem?_dropLast, hlen]
    by_cases hn : n + 1 ≤ 100 - 1
    · rw [if_pos (by omega), if_pos (by omega), Nat.add_sub_cancel]
    · rw [if_neg (by omega), if_neg (by omega)]
      exact List.getElem?_eq_none (by omega)

/-- The trail buffer written by one `update` call, as a head insertion. -/
theorem update_trail_eq (M : JsMath) (t : ℚ) (s : ActiveState)
    (hC : s.trailLength = 100) (hlen : s.trail.length = 100) :
    (s.update M t).trail
      = mouseToWorld M s.camera s.mouseX s.mouseY 5 :: s.trail.dropLast :=
  updateCursorTrail_eq M s hC hlen

/-- Claim C1: for every trail state and stored pointer sample, one `update()`
shifts every trail sample one slot toward the tail (slot `i` receives the
previous contents of slot `i - 1` for every `1 ≤ i < 100`) and writes the
projection of the most recent pointer sample at depth `z = 5` into slot 0;
in particular slot 1 after the call equals slot 0 before the call. -/
theorem trail_shift_and_project (M : JsMath) (t : ℚ) (s : ActiveState)
    (hC : s.trailLength = 100) (hlen : s.trail.length = 100) :
    (s.update M t).trail[0]? = some (mouseToWorld M s.camera s.mouseX s.mouseY 5)
    ∧ (∀ i, 1 ≤ i → i < 100 → (s.update M t).trail[i]? = s.trail[i - 1]?)
    ∧ (s.update M t).trail[1]? = s.trail[0]? := by
  have hu : (s.update M t).trail = updateCursorTrail M s := rfl
  have key : ∀ j : ℕ, (s.update M t).trail[j]?
      = ((shiftLoop s.trail (100 - 1)).set 0
          (mouseToWorld M s.camera s.mouseX s.mouseY 5))[j]? := by
    intro j
    rw [hu]
    unfold updateCursorTrail
    rw [hC]
  have hsl : (shiftLoop s.trail (100 - 1)).length = s.trail.length := shiftLoop_length _ _
  refine ⟨?_, ?_, ?_⟩
  · rw [key 0, List.getElem?_set]
    simp [hsl, hlen]
  · intro i h1 h2
    rw [key i, List.getElem?_set, if_neg (by omega : ¬ (0 = i)),
      shiftLoop_getElem? (100 - 1) s.trail (by omega) i, if_pos (by omega)]
  · rw [key 1, List.getElem?_set, if_neg (by omega : ¬ (0 = 1)),
      shiftLoop_getElem? (100 - 1) s.trail (by omega) 1, if_pos (by omega)]

/-- Concrete instance of claim C1 at the freshly constructed scene. -/
theorem trail_shift_and_project_witness :
    sTest.trailLength = 100 ∧ sTest.trail.length = 100
    ∧ (sTest.update Mtest 0).trail[1]? = sTest.trail[0]? :=
  ⟨rfl, by simp [sTest, initActive],
    (trail_shift_and_project Mtest 0 sTest rfl (by simp [sTest, initActive])).2.2⟩

/-! ## Disabled state (claim C2) -/

/-- Counterexample to claim C2 as stated: on an orchestrator constructed
without a canvas, `setScroll` is not a no-op — it has no `enabled` guard
(`scene.js` lines 298-300) and stores the clamped progress into
`this.scrollProgress`, so the state changes. -/
theorem disabled_setScroll_changes_state :
    Scene.setScroll (Scene.new Mtest false 800 600) 0.5 ≠ Scene.new Mtest false 800 600 := by
  intro h
  have : some (max 0 (min 1 (0.5 : ℚ))) = (none : Option ℚ) := by
    injection h with h1
    exact congrArg DisabledFields.scrollProgress h1
  simp at this

/-- Claim C2 (amended): constructed without a canvas, the orchestrator is
permanently disabled; `update`, `resize` and `setVelocity` are complete
no-ops (they return normally and change nothing, and no rendering state
exists to act on), while `setScroll` and `setMouse` also return normally,
perform no rendering work and allocate no rendering resources, but do
record the clamped scroll progress resp. the pointer coordinates into the
otherwise-uninitialized fields. -/
theorem disabled_ops_characterized (f : DisabledFields) (M : JsMath)
    (t w h p x y v : ℚ) :
    Scene.new M false w h = .disabled ⟨none, none, none⟩
    ∧ Scene.update M t (.disabled f) = .disabled f
    ∧ Scene.resize M w h (.disabled f) = .disabled f
    ∧ Scene.setVelocity (.disabled f) v = .disabled f
    ∧ Scene.setScroll (.disabled f) p
        = .disabled { f with scrollProgress := some (max 0 (min 1 p)) }
    ∧ Scene.setMouse (.disabled f) x y
        = .disabled { f with mouseX := some x, mouseY := some y } :=
  ⟨rfl, rfl, rfl, rfl, rfl, rfl⟩

/-! ## Velocity decay (claim C3) -/

/-- The velocity uniform after a run of `update` calls: each call multiplies
it by 0.95 (`scene.js` line 336). -/
theorem runUpdates_uVelocity (M : JsMath) (ts : List ℚ) (s : ActiveState) :
    (runUpdates M ts s).uVelocity = s.uVelocity * (0.95 : ℚ) ^ ts.length := by
  induction ts generalizing s with
  | nil => simp [runUpdates]
  | cons t ts ih =>
    have hstep : runUpdates M (t :: ts) s = runUpdates M ts (s.update M t) := rfl
    rw [hstep, ih]
    show (s.uVelocity * 0.95) * (0.95 : ℚ) ^ ts.length = _
    rw [List.length_cons, pow_succ]
    ring

/-- Claim C3: after `setVelocity(v₀)` and `k` consecutive `update()` calls
with no intervening `setVelocity`, the velocity uniform equals
`v₀ * 0.95 ^ k`; for `v₀ ≠ 0` one more frame strictly decreases its
magnitude, and the value is never exactly 0. -/
theorem velocity_geometric_decay (M : JsMath) (s : ActiveState) (v0 : ℚ) (ts : List ℚ) :
    (runUpdates M ts (ActiveState.setVelocity v0 s)).uVelocity = v0 * (0.95 : ℚ) ^ ts.length
    ∧ (v0 ≠ 0 →
        (∀ t : ℚ, |((runUpdates M ts (ActiveState.setVelocity v0 s)).update M t).uVelocity|
            < |(runUpdates M ts (ActiveState.setVelocity v0 s)).uVelocity|)
        ∧ (runUpdates M ts (ActiveState.setVelocity v0 s)).uVelocity ≠ 0) := by
  have hval : (runUpdates M ts (ActiveState.setVelocity v0 s)).uVelocity
      = v0 * (0.95 : ℚ) ^ ts.length := by
    rw [runUpdates_uVelocity]
    rfl
  refine ⟨hval, fun hv0 => ⟨fun t => ?_, ?_⟩⟩
  · have hne : (runUpdates M ts (ActiveState.setVelocity v0 s)).uVelocity ≠ 0 := by
      rw [hval]
      exact mul_ne_zero hv0 (pow_ne_zero _ (by norm_num))
    show |(runUpdates M ts (ActiveState.setVelocity v0 s)).uVelocity * 0.95| < _
    rw [abs_mul]
    have habs : (0 : ℚ) < |(runUpdates M ts (ActiveState.setVelocity v0 s)).uVelocity| :=
      abs_pos.mpr hne
    calc |(runUpdates M ts (ActiveState.setVelocity v0 s)).uVelocity| * |(0.95 : ℚ)|
        = |(runUpdates M ts (ActiveState.setVelocity v0 s)).uVelocity| * 0.95 := by
          norm_num [abs_of_pos]
      _ < |(runUpdates M ts (ActiveState.setVelocity v0 s)).uVelocity| * 1 := by
          have h95 : (0.95 : ℚ) < 1 := by norm_num
          exact mul_lt_mul_of_pos_left h95 habs
      _ = _ := mul_one _
  · rw [hval]
    exact mul_ne_zero hv0 (pow_ne_zero _ (by norm_num))

/-- Concrete instance of claim C3: `v₀ = 1`, two frames. -/
theorem velocity_geometric_decay_witness :
    ((1 : ℚ) ≠ 0)
    ∧ (runUpdates Mtest [0, 1] (ActiveState.setVelocity 1 sTest)).uVelocity
        = 1 * (0.95 : ℚ) ^ 2
    ∧ (runUpdates Mtest [0, 1] (ActiveState.setVelocity 1 sTest)).uVelocity ≠ 0 :=
  ⟨by norm_num,
   (velocity_geometric_decay Mtest sTest 1 [0, 1]).1,
   ((velocity_geometric_decay Mtest sTest 1 [0, 1]).2 (by norm_num)).2⟩

/-! ## Coordinate projection (claim C4) -/

/-- Claim C4: for every normalized input and target depth with
`direction.z ≠ 0`, `_mouseToWorld` builds the device-space point
`(nx, -ny)`, unprojects it, and returns
`camera.position + t • direction` with
`t = (z - camera.position.z) / direction.z` — a point whose z-coordinate
equals the target depth. -/
theorem mouseToWorld_plane_intersection (M : JsMath) (cam : Camera) (nx ny z : ℚ)
    (h : (rayDir M cam nx ny).z ≠ 0) :
    mouseToWorld M cam nx ny z
      = cam.position
          + ((z - cam.position.z) / (rayDir M cam nx ny).z) • rayDir M cam nx ny
    ∧ (mouseToWorld M cam nx ny z).z = z := by
  constructor
  · rfl
  · show cam.position.z + ((z - cam.position.z) / (rayDir M cam nx ny).z)
        * (rayDir M cam nx ny).z = z
    rw [div_mul_cancel₀ _ h]
    ring

/-- Concrete instance of claim C4: the test camera looking along `-z`. -/
theorem mouseToWorld_plane_intersection_witness :
    (rayDir Mtest (initActive Mtest 800 600).camera 0 0).z ≠ 0
    ∧ (mouseToWorld Mtest (initActive Mtest 800 600).camera 0 0 5).z = 5 :=
  ⟨by norm_num [rayDir, vecNormalize, Mtest, initActive, Vec3.sub_def],
   (mouseToWorld_plane_intersection Mtest (initActive Mtest 800 600).camera 0 0 5
      (by norm_num [rayDir, vecNormalize, Mtest, initActive, Vec3.sub_def])).2⟩

/-! ## Parallax depth monotonicity (claim C5) -/

/-- Componentwise characterization of `Vec3` equality. -/
theorem Vec3.eq_iff (a b : Vec3) : a = b ↔ a.x = b.x ∧ a.y = b.y ∧ a.z = b.z := by
  cases a
  cases b
  simp

/-- Counterexample to claim C5 as stated: at pointer input `(0, 0)` the
pointer-parallax displacement of every object is the zero vector, so the
displacement magnitude of the shallower object (base depth `-12`, the third
wireframe) is *equal* to, not strictly greater than, that of the deeper
object (base depth `-20`, the second wireframe), even though
`|-12| < |-20| < 25`.  (Magnitudes are compared through their squares,
which is order-equivalent for nonnegative reals.) -/
theorem parallax_strict_counterexample :
    (meshDefs.getD 2 (⟨0, 0, 0⟩, 0)).1.z = -12
    ∧ (meshDefs.getD 1 (⟨0, 0, 0⟩, 0)).1.z = -20
    ∧ |(-12 : ℚ)| < |(-20 : ℚ)| ∧ |(-20 : ℚ)| < 25
    ∧ ¬ (parallaxDispMagSq 0 0 (-12) > parallaxDispMagSq 0 0 (-20)) := by
  refine ⟨rfl, rfl, by norm_num, by norm_num, ?_⟩
  norm_num [parallaxDispMagSq]

/-- Claim C5 (amended): for every *nonzero* pointer input and two decorative
objects with base depths `|z₁| < |z₂| < 25`, the pointer-parallax
displacement magnitude of the shallower object is strictly greater than the
deeper object's, because `depth_factor = 1 - |z|/25` decreases linearly in
`|z|`; at pointer `(0,0)` both displacements vanish and the comparison is an
equality.  (Stated on squared magnitudes, which is order-equivalent.) -/
theorem parallax_monotone_in_depth (mx my z1 z2 : ℚ)
    (h12 : |z1| < |z2|) (h2 : |z2| < 25) (hm : ¬ (mx = 0 ∧ my = 0)) :
    parallaxDispMagSq mx my z2 < parallaxDispMagSq mx my z1 := by
  have hs2 : 0 < parallaxStrength z2 := by
    unfold parallaxStrength
    linarith
  have hs12 : parallaxStrength z2 < parallaxStrength z1 := by
    unfold parallaxStrength
    linarith
  have hmm : 0 < mx ^ 2 + my ^ 2 := by
    rcases not_and_or.mp hm with h | h
    · have h1 : 0 < mx * mx := mul_self_pos.mpr h
      nlinarith [sq_nonneg my]
    · have h1 : 0 < my * my := mul_self_pos.mpr h
      nlinarith [sq_nonneg mx]
  unfold parallaxDispMagSq
  nlinarith [mul_pos (mul_pos (sub_pos.mpr hs12)
    (by linarith : (0 : ℚ) < parallaxStrength z1 + parallaxStrength z2)) hmm]

/-- Concrete instance of the amended claim C5: pointer `(1, 0)`, the third
wireframe (base depth `-12`) versus the second (base depth `-20`). -/
theorem parallax_monotone_in_depth_witness :
    |(-12 : ℚ)| < |(-20 : ℚ)| ∧ |(-20 : ℚ)| < 25 ∧ ¬ ((1 : ℚ) = 0 ∧ (0 : ℚ) = 0)
    ∧ parallaxDispMagSq 1 0 (-20) < parallaxDispMagSq 1 0 (-12) :=
  ⟨by norm_num, by norm_num, by norm_num,
   parallax_monotone_in_depth 1 0 (-12) (-20) (by norm_num) (by norm_num) (by norm_num)⟩

/-! ## Resize round-trip (claim C6) -/

/-- Claim C6: for positive viewport sizes, `resize(W₂,H₂)` followed by
`resize(W₁,H₁)` yields background-plane dimensions equal to those of a
single `resize(W₁,H₁)`; the plane dimensions are a pure function of the
current viewport (independent of the prior state). -/
theorem resize_roundtrip (M : JsMath) (s sOther : ActiveState) (W1 H1 W2 H2 : ℚ)
    (hW1 : 0 < W1) (hH1 : 0 < H1) (hW2 : 0 < W2) (hH2 : 0 < H2) :
    ((s.resize M W2 H2).resize M W1 H1).bgPlaneWidth = (s.resize M W1 H1).bgPlaneWidth
    ∧ ((s.resize M W2 H2).resize M W1 H1).bgPlaneHeight = (s.resize M W1 H1).bgPlaneHeight
    ∧ (s.resize M W1 H1).bgPlaneWidth = (sOther.resize M W1 H1).bgPlaneWidth
    ∧ (s.resize M W1 H1).bgPlaneHeight = (sOther.resize M W1 H1).bgPlaneHeight :=
  ⟨rfl, rfl, rfl, rfl⟩

/-- Concrete instance of claim C6. -/
theorem resize_roundtrip_witness :
    (0 : ℚ) < 800 ∧ (0 : ℚ) < 600 ∧ (0 : ℚ) < 1024 ∧ (0 : ℚ) < 768
    ∧ ((sTest.resize Mtest 1024 768).resize Mtest 800 600).bgPlaneWidth
        = (sTest.resize Mtest 800 600).bgPlaneWidth :=
  ⟨by norm_num, by norm_num, by norm_num, by norm_num,
   (resize_roundtrip Mtest sTest sTest 800 600 1024 768
      (by norm_num) (by norm_num) (by norm_num) (by norm_num)).1⟩

/-! ## Degenerate ray (claim C7) -/

/-- A library instantiation whose unprojection sends every NDC point to
`(31, 0, 30)`: with the camera at `(0, 0, 30)` the camera-to-point ray is
horizontal, so `direction.z = 0` — the degenerate case of the projector. -/
def Mdeg : JsMath := { Mtest with unproject := fun _ _ => ⟨31, 0, 30⟩ }

/-- The test camera: the constructor's camera with aspect 4/3. -/
def camTest : Camera :=
  { fov := 45, aspect := 4 / 3, near := 0.1, far := 1000, position := ⟨0, 0, 30⟩ }

/-- Counterexample to claim C7 as stated: `_mouseToWorld` has no guard for
`direction.z = 0`.  At a degenerate input (horizontal ray, `direction.z = 0`)
it evaluates the unguarded formula
`camera.position + ((z - camera.z) / direction.z) • direction`: in the exact
model (where division by zero yields 0) the result collapses to the camera
position `(0, 0, 30)`, which does not lie on the requested plane `z = 5` and
is not a "previous valid sample" — the function receives no history at all.
(In JavaScript float arithmetic the same expression produces non-finite
components, which propagate out.) -/
theorem mouseToWorld_degenerate_unguarded :
    (rayDir Mdeg camTest 0 0).z = 0
    ∧ mouseToWorld Mdeg camTest 0 0 5 = camTest.position
    ∧ (mouseToWorld Mdeg camTest 0 0 5).z ≠ 5 := by
  have hz : (rayDir Mdeg camTest 0 0).z = 0 := by
    norm_num [rayDir, vecNormalize, Mdeg, Mtest, camTest, Vec3.sub_def]
  refine ⟨hz, ?_, ?_⟩
  · show camTest.position + ((5 - camTest.position.z) / (rayDir Mdeg camTest 0 0).z)
        • rayDir Mdeg camTest 0 0 = camTest.position
    rw [hz, div_zero, Vec3.eq_iff]
    simp [Vec3.add_def, Vec3.smul_def]
  · show camTest.position.z + ((5 - camTest.position.z) / (rayDir Mdeg camTest 0 0).z)
        * (rayDir Mdeg camTest 0 0).z ≠ 5
    rw [hz, mul_zero, add_zero]
    norm_num [camTest]

/-- Claim C7 (amended): `_mouseToWorld` contains no guard for
`direction.z = 0`: the division by `direction.z` is unconditional, and for a
degenerate ray the returned value is just the unguarded formula — in the
exact model it collapses to the camera position (independent of the target
depth and of any earlier sample), and in JavaScript float arithmetic a
non-finite value would propagate instead.  The suggested
previous-valid-sample fallback is absent. -/
theorem mouseToWorld_no_guard (M : JsMath) (cam : Camera) (nx ny z : ℚ)
    (h : (rayDir M cam nx ny).z = 0) :
    mouseToWorld M cam nx ny z = cam.position := by
  show cam.position + ((z - cam.position.z) / (rayDir M cam nx ny).z)
      • rayDir M cam nx ny = cam.position
  rw [h, div_zero, Vec3.eq_iff]
  simp [Vec3.add_def, Vec3.smul_def]

/-- Concrete instance of amended claim C7 (target depth 7). -/
theorem mouseToWorld_no_guard_witness :
    (rayDir Mdeg camTest 0 0).z = 0
    ∧ mouseToWorld Mdeg camTest 0 0 7 = camTest.position := by
  have hz : (rayDir Mdeg camTest 0 0).z = 0 := by
    norm_num [rayDir, vecNormalize, Mdeg, Mtest, camTest, Vec3.sub_def]
  exact ⟨hz, mouseToWorld_no_guard Mdeg camTest 0 0 7 hz⟩

/-! ## Trail sentinel and the camera frustum (claim C8) -/

/-- Claim C8 is a code bug: the sentinel `(0, 0, -100)` written by
`_initCursorTrail` lies *inside* the frustum of the constructed camera
(position `(0, 0, 30)`, default orientation looking along `-z`, fov 45°,
near 0.1, far 1000): its view-space depth is `30 - (-100) = 130`, between
the near and far planes, on the optical axis.  It is 130 units in *front*
of the camera, although the code's own comment calls it "far behind camera,
invisible".  This theorem evaluates the construction state at the failing
input: every trail slot holds the sentinel, the sentinel satisfies the
frustum test for every positive `tan(fov/2)` and aspect ratio, and it lies
in front of the camera (`z < camera.z`), contradicting the claim. -/
theorem sentinel_inside_frustum (M : JsMath) (w h tanHalfFov aspect : ℚ)
    (ht : 0 < tanHalfFov) (ha : 0 < aspect) :
    (initActive M w h).trail = List.replicate 100 trailSentinel
    ∧ ∀ p ∈ (initActive M w h).trail,
        inFrustum tanHalfFov aspect (initActive M w h).camera p
        ∧ p.z < (initActive M w h).camera.position.z := by
  refine ⟨rfl, fun p hp => ?_⟩
  have hps : p = trailSentinel := List.eq_of_mem_replicate hp
  subst hps
  constructor
  · refine ⟨by norm_num [initActive, trailSentinel],
      by norm_num [initActive, trailSentinel], ?_, ?_⟩
    · show |trailSentinel.x - (0 : ℚ)| ≤ tanHalfFov * aspect * (30 - trailSentinel.z)
      rw [show trailSentinel.x = 0 from rfl, show trailSentinel.z = -100 from rfl]
      rw [sub_zero, abs_zero]
      positivity
    · show |trailSentinel.y - (0 : ℚ)| ≤ tanHalfFov * (30 - trailSentinel.z)
      rw [show trailSentinel.y = 0 from rfl, show trailSentinel.z = -100 from rfl]
      rw [sub_zero, abs_zero]
      positivity
  · norm_num [initActive, trailSentinel]

/-- Concrete instance of claim C8's evaluation: `tan(fov/2) = 1`, aspect 1. -/
theorem sentinel_inside_frustum_witness :
    (0 : ℚ) < 1
    ∧ inFrustum 1 1 (initActive Mtest 800 600).camera trailSentinel := by
  refine ⟨by norm_num, ?_⟩
  exact ((sentinel_inside_frustum Mtest 800 600 1 1 (by norm_num) (by norm_num)).2
    trailSentinel (by simp [initActive, List.mem_replicate])).1

/-! ## update() recomputes, never accumulates (claim C9) -/

/-- Claim C9: `update()` never modifies the stored input signals or the
object constants: `scrollProgress`, `mouseX`, `mouseY`, `trailLength` and
every mesh's `basePosition` and `speed` are unchanged, and every mesh's
current x/y position is recomputed from scratch each frame as
`basePosition` plus the pointer parallax (plus, on y, the sinusoidal bob of
amplitude 0.15) — a closed form in the current inputs only, never a delta
accumulated onto the previous position. -/
theorem update_recomputes_from_inputs (M : JsMath) (t : ℚ) (s : ActiveState) :
    (s.update M t).scrollProgress = s.scrollProgress
    ∧ (s.update M t).mouseX = s.mouseX
    ∧ (s.update M t).mouseY = s.mouseY
    ∧ (s.update M t).trailLength = s.trailLength
    ∧ (s.update M t).geometries.map MeshObj.basePosition
        = s.geometries.map MeshObj.basePosition
    ∧ (s.update M t).geometries.map MeshObj.speed = s.geometries.map MeshObj.speed
    ∧ ∀ g ∈ (s.update M t).geometries,
        g.posX = g.basePosition.x + s.mouseX * parallaxStrength g.basePosition.z
        ∧ g.posY = g.basePosition.y + s.mouseY * parallaxStrength g.basePosition.z
            + M.sin (t * 0.3 * g.speed + g.speed * 10) * 0.15 := by
  have hgeo : (s.update M t).geometries
      = s.geometries.map (animateMesh M s.mouseX s.mouseY t) := rfl
  refine ⟨rfl, rfl, rfl, rfl, ?_, ?_, ?_⟩
  · rw [hgeo, List.map_map]
    exact List.map_congr_left fun m _ => rfl
  · rw [hgeo, List.map_map]
    exact List.map_congr_left fun m _ => rfl
  · intro g hg
    rw [hgeo] at hg
    obtain ⟨m, hm, rfl⟩ := List.mem_map.mp hg
    exact ⟨rfl, rfl⟩

/-! ## Trail fill invariant (claim C10) -/

theorem stepFrame_camera (M : JsMath) (f : Frame) (s : ActiveState) :
    (stepFrame M f s).camera = s.camera := rfl

theorem stepFrame_trailLength (M : JsMath) (f : Frame) (s : ActiveState) :
    (stepFrame M f s).trailLength = s.trailLength := rfl

/-- One frame on a full buffer: push the frame's projection, drop the
oldest slot. -/
theorem stepFrame_trail (M : JsMath) (f : Frame) (s : ActiveState)
    (hC : s.trailLength = 100) (hlen : s.trail.length = 100) :
    (stepFrame M f s).trail = frameProj M s.camera f :: s.trail.dropLast :=
  update_trail_eq M f.t (ActiveState.setMouse f.mx f.my s) hC hlen

/-- The trail buffer's cardinality is preserved by every frame. -/
theorem runFrames_trail_length (M : JsMath) :
    ∀ (fs : List Frame) (s : ActiveState), s.trailLength = 100 →
      s.trail.length = 100 → (runFrames M fs s).trail.length = 100 := by
  intro fs
  induction fs with
  | nil => intro s _ h2; exact h2
  | cons f fs ih =>
    intro s h1 h2
    have hlen : (stepFrame M f s).trail.length = 100 := by
      rw [stepFrame_trail M f s h1 h2]
      simp [h2]
    exact ih (stepFrame M f s) h1 hlen

/-- Running at most 100 frames on a full buffer: the result is the frames'
projections (newest first) followed by the surviving prefix of the starting
buffer. -/
theorem runFrames_trail (M : JsMath) :
    ∀ (fs : List Frame) (s : ActiveState), s.trailLength = 100 →
      s.trail.length = 100 → fs.length ≤ 100 →
      (runFrames M fs s).trail
        = fs.reverse.map (frameProj M s.camera) ++ s.trail.take (100 - fs.length) := by
  intro fs
  induction fs with
  | nil =>
    intro s _ h2 _
    simp [runFrames, List.take_of_length_le (le_of_eq h2)]
  | cons f fs ih =>
    intro s h1 h2 h3
    have hlen : (stepFrame M f s).trail.length = 100 := by
      rw [stepFrame_trail M f s h1 h2]
      simp [h2]
    have hrun : runFrames M (f :: fs) s = runFrames M fs (stepFrame M f s) := rfl
    rw [hrun, ih (stepFrame M f s) h1 hlen (by simp at h3; omega)]
    rw [stepFrame_camera, stepFrame_trail M f s h1 h2]
    have hsplit : 100 - fs.length = (99 - fs.length) + 1 := by
      simp at h3
      omega
    rw [hsplit, List.take_succ_cons]
    rw [List.dropLast_eq_take, h2, List.take_take]
    have hmin : min (99 - fs.length) (100 - 1) = 99 - fs.length := by omega
    rw [hmin]
    have hgoal : 100 - (f :: fs).length = 99 - fs.length := by
      simp only [List.length_cons]
      omega
    rw [hgoal, List.reverse_cons, List.map_append]
    simp

/-- Claim C10: starting from the construction state with no resize, after
`n < 100` frames the trail holds the `n` frames' projected pointer
positions in newest-to-oldest order in slots `0 … n-1`, slots `n … 99`
still hold the construction sentinel `(0, 0, -100)`, and the buffer always
has exactly 100 slots (for any number of frames). -/
theorem trail_fill_invariant (M : JsMath) (w h : ℚ) (fs : List Frame) :
    (runFrames M fs (initActive M w h)).trail.length = 100
    ∧ (fs.length < 100 →
        (runFrames M fs (initActive M w h)).trail
          = fs.reverse.map (frameProj M (initActive M w h).camera)
            ++ List.replicate (100 - fs.length) trailSentinel) := by
  constructor
  · exact runFrames_trail_length M fs (initActive M w h) rfl (by simp [initActive])
  · intro hn
    rw [runFrames_trail M fs (initActive M w h) rfl (by simp [initActive]) (by omega)]
    have htake : (initActive M w h).trail.take (100 - fs.length)
        = List.replicate (100 - fs.length) trailSentinel := by
      show (List.replicate 100 trailSentinel).take (100 - fs.length) = _
      rw [List.take_replicate]
      congr 1
      omega
    rw [htake]

/-- Concrete instance of claim C10: zero frames leave the whole buffer at
the sentinel. -/
theorem trail_fill_invariant_witness :
    ([] : List Frame).length < 100
    ∧ (runFrames Mtest [] (initActive Mtest 800 600)).trail
        = ([] : List Frame).reverse.map (frameProj Mtest (initActive Mtest 800 600).camera)
          ++ List.replicate (100 - ([] : List Frame).length) trailSentinel :=
  ⟨by norm_num, (trail_fill_invariant Mtest 800 600 []).2 (by norm_num)⟩
